import Mathlib

/-!
Shallow embedding of the two in-memory state managers of the Med_AI backend:
the sliding-window rate limiter (`src/assistant_chatbot/backend/rate_limiter.py`)
and the session manager (`src/assistant_chatbot/backend/session_manager.py`).

Modelling conventions:
- Wall-clock timestamps (`time.time()` / `datetime.utcnow()`) are modelled as
  integers (seconds); each operation that reads the clock takes an explicit
  `now` parameter, read once per call.
- Python dicts keyed by strings are modelled as association lists with unique
  keys; deletion removes every pair with the key (equivalent on unique-key
  states, which are the only reachable ones).
- HTTP header maps are modelled as a record of their numeric values (the code
  stores the decimal rendering of the same numbers, and `Retry-After` is
  present exactly when the `retryAfter` field is `some`).
- The `metadata` dict of a session holds only the optional key
  `context_switches`; a missing key and an empty list are observationally
  identical in the code (`metadata.get('context_switches', [])`), so the model
  uses a plain list.
- `uuid.uuid4()` generation in `create_session` is modelled by the caller
  supplying the session id explicitly.
-/

namespace MedAI

/-- Association-list lookup, mirroring Python `dict.get` / `dict[k]`. -/
def alookup {α : Type} : List (String × α) → String → Option α
  | [], _ => none
  | (k, v) :: rest, key => if k = key then some v else alookup rest key

/-- Association-list insert-or-replace, mirroring Python `dict[k] = v`. -/
def ainsert {α : Type} : List (String × α) → String → α → List (String × α)
  | [], key, v => [(key, v)]
  | (k, w) :: rest, key, v =>
    if k = key then (k, v) :: rest else (k, w) :: ainsert rest key v

/-- Association-list deletion, mirroring Python `del d[k]` (keys are unique in
every reachable state, so removing every occurrence is equivalent). -/
def aerase {α : Type} (m : List (String × α)) (key : String) : List (String × α) :=
  m.filter (fun kv => kv.1 ≠ key)

/-! ## Rate limiter (`rate_limiter.py`) -/

/-- `RateLimitEntry`: per-IP request-timestamp log and optional block expiry. -/
structure RateLimitEntry where
  ip_address : String
  requests : List Int
  blocked_until : Option Int
deriving Repr, DecidableEq

/-- `RateLimitEntry.cleanup_old_requests`: drop timestamps at or before
`now - window_minutes * 60` (the code keeps `req_time > cutoff`). -/
def RateLimitEntry.cleanup_old_requests (e : RateLimitEntry)
    (window_minutes now : Int) : RateLimitEntry :=
  { e with requests := e.requests.filter (fun t => now - window_minutes * 60 < t) }

/-- `RateLimitEntry.is_blocked`: returns the blocked flag and the entry after
the lazy clearing of an expired block. -/
def RateLimitEntry.is_blocked (e : RateLimitEntry) (now : Int) :
    Bool × RateLimitEntry :=
  match e.blocked_until with
  | none => (false, e)
  | some b => if b ≤ now then (false, { e with blocked_until := none }) else (true, e)

/-- `RateLimitEntry.add_request`: append the current timestamp. -/
def RateLimitEntry.add_request (e : RateLimitEntry) (now : Int) : RateLimitEntry :=
  { e with requests := e.requests ++ [now] }

/-- `RateLimitEntry.block_for_duration`: set block expiry to now + duration. -/
def RateLimitEntry.block_for_duration (e : RateLimitEntry)
    (duration_seconds now : Int) : RateLimitEntry :=
  { e with blocked_until := some (now + duration_seconds) }

/-- Number of timestamps strictly after `cutoff`
(`sum(1 for t in requests if t > cutoff)`), as a Python int. -/
def countIn (l : List Int) (cutoff : Int) : Int :=
  ((l.filter (fun t => cutoff < t)).length : Int)

/-- `RateLimiter` state: configuration plus the per-IP entry table. -/
structure RateLimiter where
  requests_per_minute : Int
  requests_per_hour : Int
  block_duration_seconds : Int
  ip_data : List (String × RateLimitEntry)
deriving Repr, DecidableEq

/-- `RateLimiter.__init__`: stores the three limits verbatim and starts with an
empty table; the source performs no validation of the arguments. -/
def mkRateLimiter (requests_per_minute requests_per_hour block_duration_seconds : Int) :
    RateLimiter :=
  { requests_per_minute := requests_per_minute
    requests_per_hour := requests_per_hour
    block_duration_seconds := block_duration_seconds
    ip_data := [] }

/-- Modelled from the spec: a validating constructor following the spec's words
"validate configuration at construction and reject with a configuration error"
for "non-positive limits or timeouts"; the source has no such code. -/
def mkRateLimiterChecked (requests_per_minute requests_per_hour block_duration_seconds : Int) :
    Option RateLimiter :=
  if requests_per_minute ≤ 0 ∨ requests_per_hour ≤ 0 ∨ block_duration_seconds ≤ 0 then
    none
  else
    some (mkRateLimiter requests_per_minute requests_per_hour block_duration_seconds)

/-- `RateLimiter.get_reset_time`. -/
def RateLimiter.get_reset_time (rl : RateLimiter) (ip : String) (now : Int) : Int :=
  match alookup rl.ip_data ip with
  | none => now + 60
  | some e =>
    if e.requests = [] then now + 60
    else
      let minute_requests := e.requests.filter (fun t => now - 60 < t)
      let hour_requests := e.requests.filter (fun t => now - 3600 < t)
      let minute_reset := match minute_requests.min? with
        | some m => m + 60
        | none => now + 60
      let hour_reset := match hour_requests.min? with
        | some m => m + 3600
        | none => now + 3600
      min minute_reset hour_reset

/-- The numeric content of the header dictionary built by
`RateLimiter._get_rate_limit_headers`. -/
structure RateHeaders where
  limitMinute : Int
  limitHour : Int
  remainingMinute : Int
  remainingHour : Int
  reset : Int
  retryAfter : Option Int
deriving Repr, DecidableEq

/-- `RateLimiter._get_rate_limit_headers` (the code stores these numbers as
strings; `Retry-After` is present iff `retryAfter` is `some`, and the Python
truthiness test on `entry.blocked_until` is the `b ≠ 0` guard). -/
def RateLimiter.get_rate_limit_headers (rl : RateLimiter) (ip : String)
    (blocked : Bool) (now : Int) : RateHeaders :=
  let rem : Int × Int :=
    match alookup rl.ip_data ip with
    | some e =>
      (max 0 (rl.requests_per_minute - countIn e.requests (now - 60)),
       max 0 (rl.requests_per_hour - countIn e.requests (now - 3600)))
    | none => (rl.requests_per_minute, rl.requests_per_hour)
  let retry : Option Int :=
    if blocked then
      match alookup rl.ip_data ip with
      | some e =>
        match e.blocked_until with
        | some b => if b ≠ 0 then some (max 1 (b - now)) else none
        | none => none
      | none => none
    else none
  { limitMinute := rl.requests_per_minute
    limitHour := rl.requests_per_hour
    remainingMinute := rem.1
    remainingHour := rem.2
    reset := rl.get_reset_time ip now
    retryAfter := retry }

/-- Store an entry for a key (the in-place mutation of `self.ip_data[ip]`). -/
def withEntry (rl : RateLimiter) (ip : String) (e : RateLimitEntry) : RateLimiter :=
  { rl with ip_data := ainsert rl.ip_data ip e }

/-- The local `entry` of `is_allowed` after the defaultdict access and the
ip-address initialisation (rate_limiter.py lines 122-125). -/
def pendingEntry (rl : RateLimiter) (ip : String) : RateLimitEntry :=
  let entry0 := (alookup rl.ip_data ip).getD
    { ip_address := "", requests := [], blocked_until := none }
  if entry0.ip_address = "" then { entry0 with ip_address := ip } else entry0

/-- The entry after the not-blocked path's lazy block clearing and one-hour
cleanup (`entry.cleanup_old_requests(60)`). -/
def cleanedEntry (rl : RateLimiter) (ip : String) (now : Int) : RateLimitEntry :=
  ((pendingEntry rl ip).is_blocked now).2.cleanup_old_requests 60 now

/-- `RateLimiter.is_allowed`. Mirrors the source: defaultdict creation of the
entry, lazy block check, one-hour cleanup, the two window-count checks with
punitive blocking, and timestamp recording on admission. Returns
`(allowed, headers, new state)`. -/
def RateLimiter.is_allowed (rl : RateLimiter) (ip : String) (now : Int) :
    Bool × RateHeaders × RateLimiter :=
  if ((pendingEntry rl ip).is_blocked now).1 then
    let rl2 := withEntry rl ip ((pendingEntry rl ip).is_blocked now).2
    (false, rl2.get_rate_limit_headers ip true now, rl2)
  else
    let entry3 := cleanedEntry rl ip now
    if rl.requests_per_minute ≤ countIn entry3.requests (now - 60) then
      let rl2 := withEntry rl ip (entry3.block_for_duration rl.block_duration_seconds now)
      (false, rl2.get_rate_limit_headers ip true now, rl2)
    else if rl.requests_per_hour ≤ countIn entry3.requests (now - 3600) then
      let rl2 := withEntry rl ip (entry3.block_for_duration rl.block_duration_seconds now)
      (false, rl2.get_rate_limit_headers ip true now, rl2)
    else
      let rl2 := withEntry rl ip (entry3.add_request now)
      (true, rl2.get_rate_limit_headers ip false now, rl2)

/-- The request log stored for `ip` ( `[]` when the key is untracked). -/
def requestsOf (rl : RateLimiter) (ip : String) : List Int :=
  match alookup rl.ip_data ip with
  | some e => e.requests
  | none => []

/-- Iterated `is_allowed` calls on one key at one instant, collecting each
call's `(allowed, headers)` result in order. -/
def admitSeq (rl : RateLimiter) (ip : String) (now : Int) :
    Nat → List (Bool × RateHeaders) × RateLimiter
  | 0 => ([], rl)
  | n + 1 =>
    let p := admitSeq rl ip now n
    let r := p.2.is_allowed ip now
    (p.1 ++ [(r.1, r.2.1)], r.2.2)

/-! ## Session manager (`session_manager.py`) -/

/-- A message record appended by `SessionContext.add_message`. -/
structure Message where
  role : String
  content : String
  timestamp : Int
  tools_used : List String
deriving Repr, DecidableEq

/-- A context-switch record appended by `SessionContext.switch_task_type` to
`metadata['context_switches']`. -/
structure SwitchRecord where
  from_task : String
  to_task : String
  timestamp : Int
deriving Repr, DecidableEq

/-- `SessionContext`. The `context_switches` list models the only key of the
`metadata` dict (missing key ≡ empty list for every observer in the code). -/
structure SessionContext where
  session_id : String
  task_type : String
  created_at : Int
  last_accessed : Int
  message_history : List Message
  context_switches : List SwitchRecord
deriving Repr, DecidableEq

/-- `SessionContext.update_access_time`. -/
def SessionContext.update_access_time (c : SessionContext) (now : Int) : SessionContext :=
  { c with last_accessed := now }

/-- `SessionContext.add_message` (Python `tools_used or []`). -/
def SessionContext.add_message (c : SessionContext) (role content : String)
    (tools_used : Option (List String)) (now : Int) : SessionContext :=
  { c with message_history := c.message_history ++
      [{ role := role, content := content, timestamp := now,
         tools_used := tools_used.getD [] }] }

/-- `SessionContext.switch_task_type`: on a changed task type, update the task
type and access time and append one `{from, to, timestamp}` record; otherwise
leave the context untouched. Returns `(changed, new context)`. -/
def SessionContext.switch_task_type (c : SessionContext) (new_task_type : String)
    (now : Int) : Bool × SessionContext :=
  if c.task_type ≠ new_task_type then
    (true,
     { c with task_type := new_task_type,
              last_accessed := now,
              context_switches := c.context_switches ++
                [{ from_task := c.task_type, to_task := new_task_type, timestamp := now }] })
  else
    (false, c)

/-- `SessionContext.is_expired`: strict comparison
`now - last_accessed > timeout_minutes minutes`. -/
def SessionContext.is_expired (c : SessionContext) (timeout_minutes now : Int) : Bool :=
  decide (timeout_minutes * 60 < now - c.last_accessed)

/-- `SessionManager` state: the session table plus the configured timeout. -/
structure SessionManager where
  sessions : List (String × SessionContext)
  session_timeout_minutes : Int
deriving Repr, DecidableEq

/-- `SessionManager.__init__`: stores the timeout verbatim (no validation) and
starts with an empty table. -/
def mkSessionManager (session_timeout_minutes : Int) : SessionManager :=
  { sessions := [], session_timeout_minutes := session_timeout_minutes }

/-- Modelled from the spec: a validating constructor following the spec's words
"non-positive limits or timeouts; fail fast at construction"; the source has
no such code. -/
def mkSessionManagerChecked (session_timeout_minutes : Int) : Option SessionManager :=
  if session_timeout_minutes ≤ 0 then none
  else some (mkSessionManager session_timeout_minutes)

/-- `SessionManager.create_session` (the generated-UUID branch is modelled by
the caller passing the id): stores a fresh context at `session_id`. -/
def SessionManager.create_session (m : SessionManager) (task_type session_id : String)
    (now : Int) : SessionManager :=
  let context : SessionContext :=
    { session_id := session_id, task_type := task_type,
      created_at := now, last_accessed := now,
      message_history := [], context_switches := [] }
  { m with sessions := ainsert m.sessions session_id context }

/-- `SessionManager.get_session`: absent on unknown id; lazy eviction of an
expired session; otherwise refresh `last_accessed` and return the context. -/
def SessionManager.get_session (m : SessionManager) (session_id : String) (now : Int) :
    Option SessionContext × SessionManager :=
  match alookup m.sessions session_id with
  | none => (none, m)
  | some c =>
    if c.is_expired m.session_timeout_minutes now then
      (none, { m with sessions := aerase m.sessions session_id })
    else
      let c2 := c.update_access_time now
      (some c2, { m with sessions := ainsert m.sessions session_id c2 })

/-- Python truthiness of an optional string argument
(`if user_message:` is false for both `None` and `""`). -/
def truthy : Option String → Bool
  | none => false
  | some s => decide (s ≠ "")

/-- `SessionManager.update_session`: fetch (with lazy eviction) or create the
session, apply `switch_task_type`, append the optional user and assistant
messages, refresh `last_accessed`, and store the result. -/
def SessionManager.update_session (m : SessionManager) (session_id task_type : String)
    (user_message assistant_response : Option String)
    (tools_used : Option (List String)) (now : Int) :
    SessionContext × SessionManager :=
  let g := m.get_session session_id now
  let cm : SessionContext × SessionManager :=
    match g.1 with
    | some c => (c, g.2)
    | none =>
      let m2 := g.2.create_session task_type session_id now
      ((alookup m2.sessions session_id).getD
         { session_id := session_id, task_type := task_type,
           created_at := now, last_accessed := now,
           message_history := [], context_switches := [] }, m2)
  let ctx1 := (cm.1.switch_task_type task_type now).2
  let ctx2 := if truthy user_message
    then ctx1.add_message "user" (user_message.getD "") none now else ctx1
  let ctx3 := if truthy assistant_response
    then ctx2.add_message "assistant" (assistant_response.getD "") tools_used now else ctx2
  let ctx4 := ctx3.update_access_time now
  (ctx4, { cm.2 with sessions := ainsert cm.2.sessions session_id ctx4 })

/-- `SessionManager.delete_session`. -/
def SessionManager.delete_session (m : SessionManager) (session_id : String) :
    Bool × SessionManager :=
  match alookup m.sessions session_id with
  | some _ => (true, { m with sessions := aerase m.sessions session_id })
  | none => (false, m)

/-- `SessionManager.cleanup_expired_sessions`: remove every expired session,
returning how many were removed. -/
def SessionManager.cleanup_expired_sessions (m : SessionManager) (now : Int) :
    Int × SessionManager :=
  let expired := m.sessions.filter (fun kv => kv.2.is_expired m.session_timeout_minutes now)
  ((expired.length : Int),
   { m with sessions :=
       m.sessions.filter (fun kv => ¬ kv.2.is_expired m.session_timeout_minutes now) })

/-- `SessionManager.has_context_switched`: calls `get_session` (with its side
effects) and inspects the switch log. -/
def SessionManager.has_context_switched (m : SessionManager) (session_id : String)
    (now : Int) : Bool × SessionManager :=
  let g := m.get_session session_id now
  match g.1 with
  | none => (false, g.2)
  | some c => (decide (0 < c.context_switches.length), g.2)

/-- `SessionManager.get_context_switches`: calls `get_session` (with its side
effects) and returns the switch log. -/
def SessionManager.get_context_switches (m : SessionManager) (session_id : String)
    (now : Int) : List SwitchRecord × SessionManager :=
  let g := m.get_session session_id now
  match g.1 with
  | none => ([], g.2)
  | some c => (c.context_switches, g.2)

/-- One public `SessionManager` operation, with its arguments and the clock
value it observes. -/
inductive MgrOp where
  | create (task_type session_id : String) (now : Int)
  | get (session_id : String) (now : Int)
  | update (session_id task_type : String)
      (user_message assistant_response : Option String)
      (tools_used : Option (List String)) (now : Int)
  | delete (session_id : String)
  | cleanup (now : Int)
deriving Repr

/-- Apply one public operation to the manager state. -/
def applyOp (m : SessionManager) : MgrOp → SessionManager
  | .create t sid now => m.create_session t sid now
  | .get sid now => (m.get_session sid now).2
  | .update sid t um ar tu now => (m.update_session sid t um ar tu now).2
  | .delete sid => (m.delete_session sid).2
  | .cleanup now => (m.cleanup_expired_sessions now).2

/-- Run a list of public operations from a given state. -/
def runOps (m : SessionManager) : List MgrOp → SessionManager
  | [] => m
  | op :: ops => runOps (applyOp m op) ops

/-- The stored-key invariant: every stored context's `session_id` equals the
table key under which it is stored. -/
def SessionInv (m : SessionManager) : Prop :=
  ∀ kv ∈ m.sessions, kv.2.session_id = kv.1

/-! ## Association-list lemmas -/

theorem alookup_ainsert_self {α : Type} :
    ∀ (m : List (String × α)) (k : String) (v : α),
      alookup (ainsert m k v) k = some v
  | [], k, v => by simp [ainsert, alookup]
  | (k1, w) :: rest, k, v => by
    by_cases h : k1 = k
    · simp [ainsert, alookup, h]
    · simp [ainsert, alookup, h, alookup_ainsert_self rest k v]

theorem alookup_ainsert_ne {α : Type} :
    ∀ (m : List (String × α)) (k k2 : String) (v : α), k ≠ k2 →
      alookup (ainsert m k v) k2 = alookup m k2
  | [], k, k2, v, h => by simp [ainsert, alookup, h]
  | (k1, w) :: rest, k, k2, v, h => by
    by_cases h1 : k1 = k
    · subst h1; simp [ainsert, alookup, h]
    · by_cases h2 : k1 = k2 <;>
        simp [ainsert, alookup, h1, h2, Ne.symm h,
          alookup_ainsert_ne rest k k2 v h]

theorem alookup_aerase_self {α : Type} :
    ∀ (m : List (String × α)) (k : String), alookup (aerase m k) k = none
  | [], _ => by simp [aerase, alookup]
  | (k1, w) :: rest, k => by
    by_cases h : k1 = k
    · simpa [aerase, alookup, h] using alookup_aerase_self rest k
    · simpa [aerase, alookup, h] using alookup_aerase_self rest k

theorem mem_ainsert {α : Type} :
    ∀ {m : List (String × α)} {k : String} {v : α} {kv : String × α},
      kv ∈ ainsert m k v → kv = (k, v) ∨ kv ∈ m := by
  intro m
  induction m with
  | nil => intro k v kv h; simp [ainsert] at h; simp [h]
  | cons hd rest ih =>
    intro k v kv h
    obtain ⟨k1, w⟩ := hd
    by_cases hk : k1 = k
    · subst hk
      simp [ainsert] at h
      rcases h with h | h
      · exact Or.inl (by simp [h])
      · exact Or.inr (by simp [h])
    · simp [ainsert, hk] at h
      rcases h with h | h
      · exact Or.inr (by simp [h])
      · rcases ih h with h2 | h2
        · exact Or.inl h2
        · exact Or.inr (by simp [h2])

theorem mem_aerase {α : Type} {m : List (String × α)} {k : String}
    {kv : String × α} (h : kv ∈ aerase m k) : kv ∈ m :=
  List.mem_of_mem_filter h

theorem alookup_mem {α : Type} :
    ∀ {m : List (String × α)} {k : String} {v : α},
      alookup m k = some v → (k, v) ∈ m := by
  intro m
  induction m with
  | nil => intro k v h; simp [alookup] at h
  | cons hd rest ih =>
    intro k v h
    obtain ⟨k1, w⟩ := hd
    by_cases hk : k1 = k
    · subst hk
      simp [alookup] at h
      simp [h]
    · simp [alookup, hk] at h
      exact List.mem_cons_of_mem _ (ih h)

/-! ## Field-preservation lemmas for `SessionContext` operations -/

@[simp] theorem update_access_time_session_id (c : SessionContext) (now : Int) :
    (c.update_access_time now).session_id = c.session_id := rfl

@[simp] theorem update_access_time_task_type (c : SessionContext) (now : Int) :
    (c.update_access_time now).task_type = c.task_type := rfl

@[simp] theorem update_access_time_message_history (c : SessionContext) (now : Int) :
    (c.update_access_time now).message_history = c.message_history := rfl

@[simp] theorem update_access_time_context_switches (c : SessionContext) (now : Int) :
    (c.update_access_time now).context_switches = c.context_switches := rfl

@[simp] theorem update_access_time_created_at (c : SessionContext) (now : Int) :
    (c.update_access_time now).created_at = c.created_at := rfl

@[simp] theorem update_access_time_last_accessed (c : SessionContext) (now : Int) :
    (c.update_access_time now).last_accessed = now := rfl

@[simp] theorem add_message_session_id (c : SessionContext) (r s : String)
    (tu : Option (List String)) (now : Int) :
    (c.add_message r s tu now).session_id = c.session_id := rfl

@[simp] theorem add_message_task_type (c : SessionContext) (r s : String)
    (tu : Option (List String)) (now : Int) :
    (c.add_message r s tu now).task_type = c.task_type := rfl

@[simp] theorem add_message_context_switches (c : SessionContext) (r s : String)
    (tu : Option (List String)) (now : Int) :
    (c.add_message r s tu now).context_switches = c.context_switches := rfl

@[simp] theorem add_message_created_at (c : SessionContext) (r s : String)
    (tu : Option (List String)) (now : Int) :
    (c.add_message r s tu now).created_at = c.created_at := rfl

@[simp] theorem add_message_message_history (c : SessionContext) (r s : String)
    (tu : Option (List String)) (now : Int) :
    (c.add_message r s tu now).message_history
      = c.message_history ++ [⟨r, s, now, tu.getD []⟩] := rfl

@[simp] theorem switch_task_type_session_id (c : SessionContext) (t : String) (now : Int) :
    (c.switch_task_type t now).2.session_id = c.session_id := by
  unfold SessionContext.switch_task_type
  split <;> rfl

@[simp] theorem switch_task_type_created_at (c : SessionContext) (t : String) (now : Int) :
    (c.switch_task_type t now).2.created_at = c.created_at := by
  unfold SessionContext.switch_task_type
  split <;> rfl

@[simp] theorem switch_task_type_message_history (c : SessionContext) (t : String) (now : Int) :
    (c.switch_task_type t now).2.message_history = c.message_history := by
  unfold SessionContext.switch_task_type
  split <;> rfl

@[simp] theorem is_blocked_requests (e : RateLimitEntry) (now : Int) :
    (e.is_blocked now).2.requests = e.requests := by
  unfold RateLimitEntry.is_blocked
  rcases e.blocked_until with _ | b
  · rfl
  · dsimp only
    split <;> rfl

/-! ## Claim theorems -/

/-- C4: for a limiter configured at 5/min, 50/hour, block 3600s, six rapid
calls to `is_allowed` on one fresh key yield: calls 1-5 allowed with
X-RateLimit-Remaining-Minute 4,3,2,1,0 in order, call 6 denied with
Retry-After 3600. -/
theorem admit_six_calls_example :
    ((admitSeq (mkRateLimiter 5 50 3600) "1.2.3.4" 1000 6).1.map
        (fun p => (p.1, p.2.remainingMinute))
      = [(true, 4), (true, 3), (true, 2), (true, 1), (true, 0), (false, 0)]) ∧
    ((admitSeq (mkRateLimiter 5 50 3600) "1.2.3.4" 1000 6).1.map
        (fun p => p.2.retryAfter)
      = [none, none, none, none, none, some 3600]) := by
  decide

/-- C2 counterexample: the sixth rapid call on a fresh key (limits 5/min,
50/hour) is denied, yet its X-RateLimit-Remaining-Hour header is 45, not the 0
the claim requires for both windows on every denial. -/
theorem deny_headers_counterexample :
    ((admitSeq (mkRateLimiter 5 50 3600) "9.9.9.9" 2000 6).1.map
        (fun p => (p.1, p.2.remainingHour))).getLast?
      = some (false, 45) ∧ (45 : Int) ≠ 0 := by
  decide

/-- C3 counterexample: constructing with non-positive configuration does not
fail — the source constructors store the values and the instances operate
(`is_allowed` and `create_session` run normally), whereas the spec-modelled
checked constructors reject the same values. -/
theorem init_no_validation_counterexample :
    mkRateLimiterChecked (-1) 50 3600 = none ∧
    mkSessionManagerChecked 0 = none ∧
    (mkRateLimiter (-1) 50 3600).requests_per_minute = -1 ∧
    ((mkRateLimiter (-1) 50 3600).is_allowed "1.2.3.4" 1000).1 = false ∧
    (mkSessionManager 0).session_timeout_minutes = 0 ∧
    ((mkSessionManager 0).create_session "symptom_analysis" "s" 50).sessions
      = [("s", ⟨"s", "symptom_analysis", 50, 50, [], []⟩)] := by
  decide

/-- C3 (amended): construction performs no validation — for every parameter
value, including non-positive ones, the constructors store the configuration
verbatim and return an instance with an empty table rather than failing. -/
theorem init_stores_config_unvalidated (rpm rph bd t : Int) :
    (mkRateLimiter rpm rph bd).requests_per_minute = rpm ∧
    (mkRateLimiter rpm rph bd).requests_per_hour = rph ∧
    (mkRateLimiter rpm rph bd).block_duration_seconds = bd ∧
    (mkRateLimiter rpm rph bd).ip_data = [] ∧
    (mkSessionManager t).session_timeout_minutes = t ∧
    (mkSessionManager t).sessions = [] :=
  ⟨rfl, rfl, rfl, rfl, rfl, rfl⟩

/-- C9 counterexample: `has_context_switched` on a fresh session rewrites its
`last_accessed` timestamp (0 becomes 10), changing the manager state, and
`get_context_switches` on an expired session removes it — neither view is
read-only as claimed. -/
theorem readonly_views_counterexample :
    ((alookup (((mkSessionManager 30).create_session "a" "s" 0).has_context_switched
        "s" 10).2.sessions "s").map SessionContext.last_accessed = some 10) ∧
    ((alookup ((mkSessionManager 30).create_session "a" "s" 0).sessions "s").map
        SessionContext.last_accessed = some 0) ∧
    ((((mkSessionManager 30).create_session "a" "s" 0).has_context_switched "s" 10).2
      ≠ (mkSessionManager 30).create_session "a" "s" 0) ∧
    ((((mkSessionManager 30).create_session "a" "s" 0).get_context_switches
        "s" 2000).2.sessions = []) := by
  decide

/-- C9 (amended): `has_context_switched` and `get_context_switches` mutate the
manager exactly as one `get_session` call does (refreshing the fresh session's
`last_accessed`, lazily evicting an expired one); their returned values are
derived read-only from the fetched context's switch log. -/
theorem views_mutate_as_get_session (m : SessionManager) (sid : String) (now : Int) :
    (m.has_context_switched sid now).2 = (m.get_session sid now).2 ∧
    (m.get_context_switches sid now).2 = (m.get_session sid now).2 ∧
    (m.get_context_switches sid now).1
      = ((m.get_session sid now).1.map SessionContext.context_switches).getD [] ∧
    (m.has_context_switched sid now).1
      = !(m.get_context_switches sid now).1.isEmpty := by
  unfold SessionManager.has_context_switched SessionManager.get_context_switches
  rcases hg : m.get_session sid now with ⟨o, m1⟩
  rcases o with _ | c
  · simp [hg]
  · refine ⟨by simp [hg], by simp [hg], by simp [hg], ?_⟩
    simp only [hg]
    rcases c.context_switches with _ | ⟨r, rs⟩ <;> simp

/-- C5: `get_session` returns absent on an unknown id (state untouched);
when inactivity strictly exceeds the timeout it removes the session and
returns absent; when present and fresh it refreshes `last_accessed` to now
(all other fields unchanged), stores and returns the refreshed context. -/
theorem get_session_spec (m : SessionManager) (sid : String) (now : Int) :
    (alookup m.sessions sid = none → m.get_session sid now = (none, m)) ∧
    (∀ c, alookup m.sessions sid = some c →
      (m.session_timeout_minutes * 60 < now - c.last_accessed →
        (m.get_session sid now).1 = none ∧
        alookup (m.get_session sid now).2.sessions sid = none) ∧
      (now - c.last_accessed ≤ m.session_timeout_minutes * 60 →
        (m.get_session sid now).1 = some (c.update_access_time now) ∧
        alookup (m.get_session sid now).2.sessions sid = some (c.update_access_time now) ∧
        (c.update_access_time now).last_accessed = now ∧
        (c.update_access_time now).task_type = c.task_type ∧
        (c.update_access_time now).message_history = c.message_history ∧
        (c.update_access_time now).context_switches = c.context_switches)) := by
  constructor
  · intro h
    simp [SessionManager.get_session, h]
  · intro c hc
    constructor
    · intro hexp
      have he : c.is_expired m.session_timeout_minutes now = true := by
        simp [SessionContext.is_expired, hexp]
      simp [SessionManager.get_session, hc, he, alookup_aerase_self]
    · intro hfresh
      have he : c.is_expired m.session_timeout_minutes now = false := by
        simp [SessionContext.is_expired]
        omega
      simp [SessionManager.get_session, hc, he, alookup_ainsert_self]

/-- C5 witness: a fresh session read at a later instant is returned with its
`last_accessed` advanced to that instant. -/
theorem get_session_spec_witness :
    (((mkSessionManager 30).create_session "a" "s" 0).get_session "s" 10).1
      = some ⟨"s", "a", 0, 10, [], []⟩ := by
  have h := (get_session_spec ((mkSessionManager 30).create_session "a" "s" 0)
      "s" 10).2 ⟨"s", "a", 0, 0, [], []⟩ (by decide)
  exact (h.2 (by decide)).1

/-- Helper: `get_session` on a present, fresh session refreshes and stores it. -/
theorem get_session_eq_of_fresh (m : SessionManager) (sid : String) (now : Int)
    (c : SessionContext) (hc : alookup m.sessions sid = some c)
    (hfresh : now - c.last_accessed ≤ m.session_timeout_minutes * 60) :
    m.get_session sid now =
      (some (c.update_access_time now),
       { m with sessions := ainsert m.sessions sid (c.update_access_time now) }) := by
  have he : c.is_expired m.session_timeout_minutes now = false := by
    simp [SessionContext.is_expired]
    omega
  simp [SessionManager.get_session, hc, he]

/-- C6: on a present fresh session, `update_session` with the current task type
appends nothing to the switch log and keeps the task type; with a different
task type it appends exactly one `{from, to}` record at the end of the log
(call order) and updates the task type; the result is what gets stored. -/
theorem update_session_switch_log (m : SessionManager) (sid tt : String)
    (c : SessionContext) (um ar : Option String) (tu : Option (List String)) (now : Int)
    (hc : alookup m.sessions sid = some c)
    (hfresh : now - c.last_accessed ≤ m.session_timeout_minutes * 60) :
    (tt = c.task_type →
      (m.update_session sid tt um ar tu now).1.context_switches = c.context_switches ∧
      (m.update_session sid tt um ar tu now).1.task_type = c.task_type) ∧
    (tt ≠ c.task_type →
      (m.update_session sid tt um ar tu now).1.context_switches
        = c.context_switches ++ [⟨c.task_type, tt, now⟩] ∧
      (m.update_session sid tt um ar tu now).1.task_type = tt) ∧
    alookup (m.update_session sid tt um ar tu now).2.sessions sid
      = some (m.update_session sid tt um ar tu now).1 := by
  have hg := get_session_eq_of_fresh m sid now c hc hfresh
  refine ⟨?_, ?_, ?_⟩
  · intro htt
    have hsw : ((c.update_access_time now).switch_task_type tt now).2
        = c.update_access_time now := by
      simp [SessionContext.switch_task_type, htt]
    rcases hum : truthy um <;> rcases har : truthy ar <;>
      simp [SessionManager.update_session, hg, hsw, hum, har]
  · intro htt
    have hsw : ((c.update_access_time now).switch_task_type tt now).2
        = { c with task_type := tt, last_accessed := now, context_switches := c.context_switches ++ [⟨c.task_type, tt, now⟩] } := by
      simp [SessionContext.switch_task_type, SessionContext.update_access_time,
        Ne.symm htt]
    rcases hum : truthy um <;> rcases har : truthy ar <;>
      simp [SessionManager.update_session, hg, hsw, hum, har]
  · rcases hum : truthy um <;> rcases har : truthy ar <;>
      simp [SessionManager.update_session, hg, hum, har, alookup_ainsert_self]

/-- C6 witness: switching a fresh session from symptom_analysis to
doctor_matching appends exactly the one expected switch record. -/
theorem update_session_switch_log_witness :
    (((mkSessionManager 30).create_session "symptom_analysis" "S" 0).update_session
        "S" "doctor_matching" (some "find me a cardiologist") none none 5).1.context_switches
      = [⟨"symptom_analysis", "doctor_matching", 5⟩] := by
  have h := (update_session_switch_log
      ((mkSessionManager 30).create_session "symptom_analysis" "S" 0)
      "S" "doctor_matching" ⟨"S", "symptom_analysis", 0, 0, [], []⟩
      (some "find me a cardiologist") none none 5 (by decide) (by decide)).2.1
      (by decide)
  exact h.1

/-- C8: when the session id is absent or the stored session has expired
(`get_session` yields none), `update_session` builds a brand-new context:
session id and requested task type set, creation time now, empty switch log
(no context switch reported), and a history holding only this call's
messages — nothing of any previous context survives. -/
theorem update_session_creates_fresh (m : SessionManager) (sid tt : String)
    (um ar : Option String) (tu : Option (List String)) (now : Int)
    (habsent : (m.get_session sid now).1 = none) :
    (m.update_session sid tt um ar tu now).1 =
      ⟨sid, tt, now, now,
        (if truthy um then [⟨"user", um.getD "", now, []⟩] else []) ++
          (if truthy ar then [⟨"assistant", ar.getD "", now, tu.getD []⟩] else []),
        []⟩ := by
  rcases hgp : m.get_session sid now with ⟨o, m1⟩
  rw [hgp] at habsent
  simp only at habsent
  subst habsent
  have hsw : ((⟨sid, tt, now, now, [], []⟩ : SessionContext).switch_task_type tt now).2
      = (⟨sid, tt, now, now, [], []⟩ : SessionContext) := by
    simp [SessionContext.switch_task_type]
  rcases hum : truthy um <;> rcases har : truthy ar <;>
    simp [SessionManager.update_session, hgp, SessionManager.create_session,
      alookup_ainsert_self, hsw, hum, har, SessionContext.add_message,
      SessionContext.update_access_time]

/-- C8 witness: updating an unknown session id creates a fresh context whose
history holds exactly this call's user message and whose switch log is empty. -/
theorem update_session_creates_fresh_witness :
    ((mkSessionManager 30).update_session "S" "a" (some "hi") none none 7).1
      = ⟨"S", "a", 7, 7, [⟨"user", "hi", 7, []⟩], []⟩ := by
  have h := update_session_creates_fresh (mkSessionManager 30) "S" "a"
    (some "hi") none none 7 (by decide)
  simpa using h

/-! ## Rate-limiter entry helper lemmas -/

@[simp] theorem ite_set_ip_requests (c : Prop) [Decidable c] (e : RateLimitEntry)
    (ip : String) :
    (if c then { e with ip_address := ip } else e).requests = e.requests := by
  split <;> rfl

@[simp] theorem ite_set_ip_blocked_until (c : Prop) [Decidable c] (e : RateLimitEntry)
    (ip : String) :
    (if c then { e with ip_address := ip } else e).blocked_until = e.blocked_until := by
  split <;> rfl

@[simp] theorem cleanup_old_requests_requests (e : RateLimitEntry) (w now : Int) :
    (e.cleanup_old_requests w now).requests
      = e.requests.filter (fun t => now - w * 60 < t) := rfl

@[simp] theorem cleanup_old_requests_blocked_until (e : RateLimitEntry) (w now : Int) :
    (e.cleanup_old_requests w now).blocked_until = e.blocked_until := rfl

@[simp] theorem add_request_requests (e : RateLimitEntry) (now : Int) :
    (e.add_request now).requests = e.requests ++ [now] := rfl

@[simp] theorem block_for_duration_requests (e : RateLimitEntry) (d now : Int) :
    (e.block_for_duration d now).requests = e.requests := rfl

@[simp] theorem block_for_duration_blocked_until (e : RateLimitEntry) (d now : Int) :
    (e.block_for_duration d now).blocked_until = some (now + d) := rfl

/-- Helper: the request log stored for a key just written into the table. -/
theorem requestsOf_withEntry (rl : RateLimiter) (ip : String) (e : RateLimitEntry) :
    requestsOf (withEntry rl ip e) ip = e.requests := by
  unfold requestsOf withEntry
  simp only
  rw [alookup_ainsert_self]

/-- Helper: the stored entry for a key just written into the table. -/
theorem alookup_withEntry (rl : RateLimiter) (ip : String) (e : RateLimitEntry) :
    alookup (withEntry rl ip e).ip_data ip = some e := by
  unfold withEntry
  simp only
  rw [alookup_ainsert_self]

/-- Helper: an entry reporting blocked has an unexpired block it leaves as is. -/
theorem is_blocked_true_elim (e : RateLimitEntry) (now : Int)
    (h : (e.is_blocked now).1 = true) :
    ∃ b, e.blocked_until = some b ∧ now < b ∧ (e.is_blocked now).2 = e := by
  rcases hbu : e.blocked_until with _ | b
  · unfold RateLimitEntry.is_blocked at h
    rw [hbu] at h
    simp at h
  · unfold RateLimitEntry.is_blocked at h ⊢
    rw [hbu] at h ⊢
    by_cases hle : b ≤ now
    · simp [hle] at h
    · exact ⟨b, rfl, by omega, by simp [hle]⟩

/-- Helper: the request log of the pending entry is the stored request log. -/
theorem pendingEntry_requests (rl : RateLimiter) (ip : String) :
    (pendingEntry rl ip).requests = requestsOf rl ip := by
  unfold pendingEntry requestsOf
  rcases alookup rl.ip_data ip with _ | e <;> simp

/-- Helper: the cleaned entry's log is the stored log purged of entries older
than one hour. -/
theorem cleanedEntry_requests (rl : RateLimiter) (ip : String) (now : Int) :
    (cleanedEntry rl ip now).requests
      = (requestsOf rl ip).filter (fun t => now - 3600 < t) := by
  unfold cleanedEntry
  rw [cleanup_old_requests_requests, is_blocked_requests, pendingEntry_requests]
  norm_num

/-- Helper: `is_allowed` on a still-blocked key denies and only rewrites the
entry through the lazy block bookkeeping. -/
theorem is_allowed_blocked_case (rl : RateLimiter) (ip : String) (now : Int)
    (hb : ((pendingEntry rl ip).is_blocked now).1 = true) :
    rl.is_allowed ip now =
      (false,
       (withEntry rl ip ((pendingEntry rl ip).is_blocked now).2).get_rate_limit_headers
         ip true now,
       withEntry rl ip ((pendingEntry rl ip).is_blocked now).2) := by
  simp only [RateLimiter.is_allowed, hb, if_true]

/-- Helper: `is_allowed` when the minute window is at or over its limit blocks
the key and denies without recording the request. -/
theorem is_allowed_minute_case (rl : RateLimiter) (ip : String) (now : Int)
    (hb : ((pendingEntry rl ip).is_blocked now).1 = false)
    (hmin : rl.requests_per_minute ≤ countIn (cleanedEntry rl ip now).requests (now - 60)) :
    rl.is_allowed ip now =
      (false,
       (withEntry rl ip
           ((cleanedEntry rl ip now).block_for_duration rl.block_duration_seconds now)).get_rate_limit_headers
         ip true now,
       withEntry rl ip
         ((cleanedEntry rl ip now).block_for_duration rl.block_duration_seconds now)) := by
  simp only [RateLimiter.is_allowed, hb, Bool.false_eq_true, if_false, hmin, if_true]

/-- Helper: `is_allowed` when the minute window is under its limit but the
hour window is at or over its limit blocks the key and denies. -/
theorem is_allowed_hour_case (rl : RateLimiter) (ip : String) (now : Int)
    (hb : ((pendingEntry rl ip).is_blocked now).1 = false)
    (hmin : ¬ rl.requests_per_minute ≤ countIn (cleanedEntry rl ip now).requests (now - 60))
    (hhour : rl.requests_per_hour ≤ countIn (cleanedEntry rl ip now).requests (now - 3600)) :
    rl.is_allowed ip now =
      (false,
       (withEntry rl ip
           ((cleanedEntry rl ip now).block_for_duration rl.block_duration_seconds now)).get_rate_limit_headers
         ip true now,
       withEntry rl ip
         ((cleanedEntry rl ip now).block_for_duration rl.block_duration_seconds now)) := by
  simp only [RateLimiter.is_allowed, hb, Bool.false_eq_true, if_false, hmin, hhour, if_true]

/-- Helper: `is_allowed` under both limits admits and records the timestamp. -/
theorem is_allowed_allow_case (rl : RateLimiter) (ip : String) (now : Int)
    (hb : ((pendingEntry rl ip).is_blocked now).1 = false)
    (hmin : ¬ rl.requests_per_minute ≤ countIn (cleanedEntry rl ip now).requests (now - 60))
    (hhour : ¬ rl.requests_per_hour ≤ countIn (cleanedEntry rl ip now).requests (now - 3600)) :
    rl.is_allowed ip now =
      (true,
       (withEntry rl ip ((cleanedEntry rl ip now).add_request now)).get_rate_limit_headers
         ip false now,
       withEntry rl ip ((cleanedEntry rl ip now).add_request now)) := by
  simp only [RateLimiter.is_allowed, hb, Bool.false_eq_true, if_false, hmin, hhour]

/-- C7: a denied `is_allowed` call (blocked or just over a limit) appends no
timestamp to the key's request log — every timestamp stored afterwards was
already there; an allowed call appends exactly one timestamp, the current
time, after the one-hour purge. -/
theorem is_allowed_log_effect (rl : RateLimiter) (ip : String) (now : Int) :
    ((rl.is_allowed ip now).1 = false →
       ∀ t ∈ requestsOf (rl.is_allowed ip now).2.2 ip, t ∈ requestsOf rl ip) ∧
    ((rl.is_allowed ip now).1 = true →
       requestsOf (rl.is_allowed ip now).2.2 ip
         = (requestsOf rl ip).filter (fun t => now - 3600 < t) ++ [now]) := by
  by_cases hb : ((pendingEntry rl ip).is_blocked now).1 = true
  · rw [is_allowed_blocked_case rl ip now hb]
    refine ⟨?_, ?_⟩
    · intro _ t ht
      rw [requestsOf_withEntry, is_blocked_requests, pendingEntry_requests] at ht
      exact ht
    · intro h
      simp at h
  · have hb2 : ((pendingEntry rl ip).is_blocked now).1 = false := by
      simpa using hb
    by_cases hmin : rl.requests_per_minute
        ≤ countIn (cleanedEntry rl ip now).requests (now - 60)
    · rw [is_allowed_minute_case rl ip now hb2 hmin]
      refine ⟨?_, ?_⟩
      · intro _ t ht
        rw [requestsOf_withEntry, block_for_duration_requests, cleanedEntry_requests] at ht
        exact (List.mem_filter.mp ht).1
      · intro h
        simp at h
    · by_cases hhour : rl.requests_per_hour
          ≤ countIn (cleanedEntry rl ip now).requests (now - 3600)
      · rw [is_allowed_hour_case rl ip now hb2 hmin hhour]
        refine ⟨?_, ?_⟩
        · intro _ t ht
          rw [requestsOf_withEntry, block_for_duration_requests, cleanedEntry_requests] at ht
          exact (List.mem_filter.mp ht).1
        · intro h
          simp at h
      · rw [is_allowed_allow_case rl ip now hb2 hmin hhour]
        refine ⟨?_, ?_⟩
        · intro h
          simp at h
        · intro _
          rw [requestsOf_withEntry, add_request_requests, cleanedEntry_requests]

/-- Helper: the header fields produced for a key whose entry is stored. -/
theorem headers_fields (rl2 : RateLimiter) (ip : String) (e : RateLimitEntry)
    (blocked : Bool) (now : Int) (he : alookup rl2.ip_data ip = some e) :
    (rl2.get_rate_limit_headers ip blocked now).remainingMinute
      = max 0 (rl2.requests_per_minute - countIn e.requests (now - 60)) ∧
    (rl2.get_rate_limit_headers ip blocked now).remainingHour
      = max 0 (rl2.requests_per_hour - countIn e.requests (now - 3600)) ∧
    (rl2.get_rate_limit_headers ip blocked now).retryAfter
      = (if blocked then
           match e.blocked_until with
           | some b => if b ≠ 0 then some (max 1 (b - now)) else none
           | none => none
         else none) := by
  unfold RateLimiter.get_rate_limit_headers
  rw [he]
  exact ⟨rfl, rfl, rfl⟩

/-- C2 (amended): every denial leaves the key blocked until a future instant
`b` and reports `Retry-After = max 1 (b - now)` — the full configured block
duration when the block is imposed by this very call (pre-entry not blocked);
but the remaining-request headers are computed from the stored entry's current
window counts, `max 0 (limit - count)`, not forced to zero for both windows. -/
theorem is_allowed_deny_headers (rl : RateLimiter) (ip : String) (now : Int)
    (hnow : 0 ≤ now) (hdur : 1 ≤ rl.block_duration_seconds)
    (hdeny : (rl.is_allowed ip now).1 = false) :
    (∃ e, alookup (rl.is_allowed ip now).2.2.ip_data ip = some e ∧
       ∃ b, e.blocked_until = some b ∧ now < b ∧
         (rl.is_allowed ip now).2.1.retryAfter = some (max 1 (b - now)) ∧
         (rl.is_allowed ip now).2.1.remainingMinute
           = max 0 (rl.requests_per_minute - countIn e.requests (now - 60)) ∧
         (rl.is_allowed ip now).2.1.remainingHour
           = max 0 (rl.requests_per_hour - countIn e.requests (now - 3600))) ∧
    (((pendingEntry rl ip).is_blocked now).1 = false →
       (rl.is_allowed ip now).2.1.retryAfter = some rl.block_duration_seconds) := by
  by_cases hb : ((pendingEntry rl ip).is_blocked now).1 = true
  · obtain ⟨b, hbu, hnb, heq⟩ := is_blocked_true_elim _ now hb
    rw [is_allowed_blocked_case rl ip now hb]
    dsimp only
    rw [heq]
    have hf := headers_fields (withEntry rl ip (pendingEntry rl ip)) ip
      (pendingEntry rl ip) true now (alookup_withEntry rl ip (pendingEntry rl ip))
    constructor
    · refine ⟨pendingEntry rl ip, alookup_withEntry rl ip (pendingEntry rl ip),
        b, hbu, hnb, ?_, hf.1, hf.2.1⟩
      have hb0 : b ≠ 0 := by omega
      simp [hf.2.2, hbu, hb0]
    · intro hfalse
      simp [hb] at hfalse
  · have hb2 : ((pendingEntry rl ip).is_blocked now).1 = false := by
      simpa using hb
    have harith : now + rl.block_duration_seconds - now = rl.block_duration_seconds := by
      ring
    by_cases hmin : rl.requests_per_minute
        ≤ countIn (cleanedEntry rl ip now).requests (now - 60)
    · rw [is_allowed_minute_case rl ip now hb2 hmin]
      dsimp only
      have hf := headers_fields
        (withEntry rl ip
          ((cleanedEntry rl ip now).block_for_duration rl.block_duration_seconds now))
        ip ((cleanedEntry rl ip now).block_for_duration rl.block_duration_seconds now)
        true now (alookup_withEntry rl ip _)
      have hb0 : now + rl.block_duration_seconds ≠ 0 := by omega
      have hretry : ((withEntry rl ip ((cleanedEntry rl ip now).block_for_duration rl.block_duration_seconds now)).get_rate_limit_headers ip true now).retryAfter = some (max 1 (now + rl.block_duration_seconds - now)) := by
        simp [hf.2.2, hb0]
      refine ⟨⟨_, alookup_withEntry rl ip _,
        now + rl.block_duration_seconds, block_for_duration_blocked_until _ _ _,
        by omega, hretry, hf.1, hf.2.1⟩, ?_⟩
      intro _
      rw [hretry, harith, max_eq_right hdur]
    · by_cases hhour : rl.requests_per_hour
          ≤ countIn (cleanedEntry rl ip now).requests (now - 3600)
      · rw [is_allowed_hour_case rl ip now hb2 hmin hhour]
        dsimp only
        have hf := headers_fields
          (withEntry rl ip
            ((cleanedEntry rl ip now).block_for_duration rl.block_duration_seconds now))
          ip ((cleanedEntry rl ip now).block_for_duration rl.block_duration_seconds now)
          true now (alookup_withEntry rl ip _)
        have hb0 : now + rl.block_duration_seconds ≠ 0 := by omega
        have hretry : ((withEntry rl ip ((cleanedEntry rl ip now).block_for_duration rl.block_duration_seconds now)).get_rate_limit_headers ip true now).retryAfter = some (max 1 (now + rl.block_duration_seconds - now)) := by
          simp [hf.2.2, hb0]
        refine ⟨⟨_, alookup_withEntry rl ip _,
          now + rl.block_duration_seconds, block_for_duration_blocked_until _ _ _,
          by omega, hretry, hf.1, hf.2.1⟩, ?_⟩
        intro _
        rw [hretry, harith, max_eq_right hdur]
      · rw [is_allowed_allow_case rl ip now hb2 hmin hhour] at hdeny
        simp at hdeny

/-- C2 witness: with limits 0/min and 0/hour the first call on a fresh key is
denied; the amended theorem then gives a stored future block and a Retry-After
equal to the full configured duration. -/
theorem is_allowed_deny_headers_witness :
    (0 : Int) ≤ 100 ∧ (1 : Int) ≤ (mkRateLimiter 0 0 3600).block_duration_seconds ∧
    ((mkRateLimiter 0 0 3600).is_allowed "w" 100).1 = false ∧
    ((∃ e, alookup ((mkRateLimiter 0 0 3600).is_allowed "w" 100).2.2.ip_data "w" = some e ∧
       ∃ b, e.blocked_until = some b ∧ (100 : Int) < b ∧
         ((mkRateLimiter 0 0 3600).is_allowed "w" 100).2.1.retryAfter = some (max 1 (b - 100)) ∧
         ((mkRateLimiter 0 0 3600).is_allowed "w" 100).2.1.remainingMinute
           = max 0 ((mkRateLimiter 0 0 3600).requests_per_minute - countIn e.requests (100 - 60)) ∧
         ((mkRateLimiter 0 0 3600).is_allowed "w" 100).2.1.remainingHour
           = max 0 ((mkRateLimiter 0 0 3600).requests_per_hour - countIn e.requests (100 - 3600))) ∧
     (((pendingEntry (mkRateLimiter 0 0 3600) "w").is_blocked 100).1 = false →
       ((mkRateLimiter 0 0 3600).is_allowed "w" 100).2.1.retryAfter
         = some (mkRateLimiter 0 0 3600).block_duration_seconds)) :=
  ⟨by decide, by decide, by decide,
   is_allowed_deny_headers (mkRateLimiter 0 0 3600) "w" 100
     (by decide) (by decide) (by decide)⟩

/-- C7 witness: the first admitted call on a fresh key leaves exactly one
recorded timestamp, the call time. -/
theorem is_allowed_log_effect_witness :
    requestsOf ((mkRateLimiter 5 50 3600).is_allowed "k" 100).2.2 "k"
      = [(100 : Int)] := by
  have h := (is_allowed_log_effect (mkRateLimiter 5 50 3600) "k" 100).2 (by decide)
  simpa using h

/-! ## The stored-key invariant (C10) -/

/-- Helper: inserting a context whose id matches the key preserves the
stored-key property. -/
theorem inv_insert {l : List (String × SessionContext)} {k : String}
    {c : SessionContext} (hl : ∀ kv ∈ l, kv.2.session_id = kv.1)
    (hc : c.session_id = k) :
    ∀ kv ∈ ainsert l k c, kv.2.session_id = kv.1 := by
  intro kv hkv
  rcases mem_ainsert hkv with h | h
  · subst h
    exact hc
  · exact hl kv h

/-- Helper: `create_session` preserves the stored-key invariant. -/
theorem inv_create (m : SessionManager) (t sid : String) (now : Int)
    (h : SessionInv m) : SessionInv (m.create_session t sid now) := by
  have hA := inv_insert h
    (rfl : SessionContext.session_id ⟨sid, t, now, now, [], []⟩ = sid) (l := m.sessions)
  intro kv hkv
  exact hA kv hkv

/-- Helper: `get_session` preserves the stored-key invariant. -/
theorem inv_get (m : SessionManager) (sid : String) (now : Int)
    (h : SessionInv m) : SessionInv (m.get_session sid now).2 := by
  rcases hl : alookup m.sessions sid with _ | c
  · simp only [SessionManager.get_session, hl]
    exact h
  · have hcid : c.session_id = sid := h (sid, c) (alookup_mem hl)
    by_cases he : c.is_expired m.session_timeout_minutes now = true
    · simp only [SessionManager.get_session, hl, he, if_true]
      intro kv hkv
      exact h kv (mem_aerase hkv)
    · simp only [SessionManager.get_session, hl, he, Bool.false_eq_true, if_false,
        eq_self_iff_true]
      intro kv hkv
      exact inv_insert h (by simpa using hcid) kv hkv

/-- Helper: a context returned by `get_session` carries the queried id. -/
theorem get_session_fst_sid (m : SessionManager) (sid : String) (now : Int)
    (h : SessionInv m) {c : SessionContext}
    (hc : (m.get_session sid now).1 = some c) : c.session_id = sid := by
  rcases hl : alookup m.sessions sid with _ | c0
  · simp only [SessionManager.get_session, hl] at hc
    simp at hc
  · have hcid : c0.session_id = sid := h (sid, c0) (alookup_mem hl)
    by_cases he : c0.is_expired m.session_timeout_minutes now = true
    · simp [SessionManager.get_session, hl, he] at hc
    · simp only [SessionManager.get_session, hl, he, Bool.false_eq_true, if_false,
        Option.some.injEq] at hc
      subst hc
      simpa using hcid

/-- Helper: `update_session` preserves the stored-key invariant. -/
theorem inv_update (m : SessionManager) (sid tt : String)
    (um ar : Option String) (tu : Option (List String)) (now : Int)
    (h : SessionInv m) : SessionInv (m.update_session sid tt um ar tu now).2 := by
  have h1 : SessionInv (m.get_session sid now).2 := inv_get m sid now h
  unfold SessionManager.update_session
  rcases hg : m.get_session sid now with ⟨o, m1⟩
  rw [hg] at h1
  rcases o with _ | c
  · have h2 : SessionInv (m1.create_session tt sid now) := inv_create m1 tt sid now h1
    have hctx : ∀ c2, alookup (m1.create_session tt sid now).sessions sid = some c2 →
        c2.session_id = sid := by
      intro c2 hc2
      exact h2 (sid, c2) (alookup_mem hc2)
    simp only [hg]
    intro kv hkv
    rcases hl2 : alookup (m1.create_session tt sid now).sessions sid with _ | c2
    · rw [hl2] at hkv
      simp only [Option.getD_none] at hkv
      refine inv_insert h2 ?_ kv hkv
      rcases hum : truthy um <;> rcases har : truthy ar <;> simp [hum, har]
    · rw [hl2] at hkv
      simp only [Option.getD_some] at hkv
      refine inv_insert h2 ?_ kv hkv
      have := hctx c2 hl2
      rcases hum : truthy um <;> rcases har : truthy ar <;> simp [hum, har, this]
  · have hcid : c.session_id = sid := get_session_fst_sid m sid now h (by rw [hg])
    simp only [hg]
    intro kv hkv
    refine inv_insert h1 ?_ kv hkv
    rcases hum : truthy um <;> rcases har : truthy ar <;> simp [hum, har, hcid]

/-- Helper: `delete_session` preserves the stored-key invariant. -/
theorem inv_delete (m : SessionManager) (sid : String)
    (h : SessionInv m) : SessionInv (m.delete_session sid).2 := by
  unfold SessionManager.delete_session
  rcases alookup m.sessions sid with _ | c
  · exact h
  · intro kv hkv
    exact h kv (mem_aerase hkv)

/-- Helper: `cleanup_expired_sessions` preserves the stored-key invariant. -/
theorem inv_cleanup (m : SessionManager) (now : Int)
    (h : SessionInv m) : SessionInv (m.cleanup_expired_sessions now).2 := by
  intro kv hkv
  unfold SessionManager.cleanup_expired_sessions at hkv
  exact h kv (List.mem_of_mem_filter hkv)

/-- Helper: every public operation preserves the stored-key invariant. -/
theorem inv_applyOp (m : SessionManager) (op : MgrOp) (h : SessionInv m) :
    SessionInv (applyOp m op) := by
  cases op with
  | create t sid now => exact inv_create m t sid now h
  | get sid now => exact inv_get m sid now h
  | update sid t um ar tu now => exact inv_update m sid t um ar tu now h
  | delete sid => exact inv_delete m sid h
  | cleanup now => exact inv_cleanup m now h

/-- C10: in every manager state reachable from a freshly constructed
`SessionManager` through the public operations (create, get, update, delete,
cleanup), every stored context's `session_id` equals the table key under which
it is stored. -/
theorem session_id_matches_key (t : Int) (ops : List MgrOp) :
    SessionInv (runOps (mkSessionManager t) ops) := by
  have hgen : ∀ (m : SessionManager), SessionInv m → SessionInv (runOps m ops) := by
    induction ops with
    | nil => intro m hm; exact hm
    | cons op rest ih =>
      intro m hm
      exact ih (applyOp m op) (inv_applyOp m op hm)
  refine hgen (mkSessionManager t) ?_
  intro kv hkv
  simp [mkSessionManager] at hkv

end MedAI
